import Mathlib

/-!
Verification of the answer-evaluation core of the cyber-interview-bot
repository (`cyber_interview_bot.py`, function `evaluate_answer`, lines
56-150).

Modelling conventions:
- Python strings are embedded as `List Char`; `str.lower`, `str.split()`,
  substring containment (`in`) and the one regular expression used by the
  code are modelled character by character over ASCII (every concrete
  input appearing in the development is ASCII).
- Python integers are `Int` (scores can be decremented before clamping).
- `round` on the quotient `matched / total` is modelled exactly on the
  rational `matched / total`, with Python's round-half-to-even tie rule.
- The two division sites of the source are embedded as fallible
  operations returning `Option`, so that "no division by zero is
  reachable" is a provable statement rather than an artifact.
-/

/-- ASCII model of Python `str.lower`. -/
def pyLower (s : List Char) : List Char := s.map Char.toLower

/-- ASCII model of Python whitespace (the characters `str.split()` and the
regex class `\s` treat as spaces). -/
def pyIsSpace (c : Char) : Bool :=
  c = ' ' || c = '\t' || c = '\n' || c = '\r' || c = '\x0b' || c = '\x0c'

/-- Helper for `countWords`: the flag records whether we are inside a word. -/
def countWordsAux : Bool → List Char → Nat
  | _, [] => 0
  | inWord, c :: rest =>
    if pyIsSpace c then countWordsAux false rest
    else (if inWord then 0 else 1) + countWordsAux true rest

/-- Model of `len(answer_text.split())`: the number of maximal runs of
non-whitespace characters. -/
def countWords (s : List Char) : Nat := countWordsAux false s

/-- Model of Python `sep.join(parts)`. -/
def joinSep (sep : List Char) : List (List Char) → List Char
  | [] => []
  | [x] => x
  | x :: y :: rest => x ++ sep ++ joinSep sep (y :: rest)

/-- Python `round(a / b)` for naturals `a`, `b` with `b > 0`: round to
nearest, ties to even (banker's rounding, as Python's `round` does). -/
def pyRound (a b : Nat) : Nat :=
  if 2 * (a % b) < b then a / b
  else if b < 2 * (a % b) then a / b + 1
  else if a / b % 2 = 0 then a / b else a / b + 1

/-- Decimal rendering of a natural number. -/
def natToChars (n : Nat) : List Char := Nat.toDigits 10 n

/-- Decimal rendering of an integer (model of Python `str(i)` inside
f-strings). -/
def intToChars : Int → List Char
  | Int.ofNat n => natToChars n
  | Int.negSucc n => '-' :: natToChars (n + 1)

/-- ASCII model of the regex class `\w` (word characters). -/
def isWordChar (c : Char) : Bool := c.isAlpha || c.isDigit || c = '_'

/-- Matches the literal word `w` at the head of `s`, followed by a word
boundary (end of string or a non-word character): models `w\b`. -/
def litThenGap (w s : List Char) : Bool :=
  w.isPrefixOf s &&
    (match s.drop w.length with
     | [] => true
     | c :: _ => !isWordChar c)

/-- Alternative `\d+%` of the metric regex, including its trailing `\b`:
after the `%` (a non-word character) the boundary demands a following word
character, so a percentage at the end of the text does not match. -/
def altPercent (s : List Char) : Bool :=
  let rest := s.dropWhile Char.isDigit
  !(s.takeWhile Char.isDigit).isEmpty &&
    (match rest with
     | '%' :: c :: _ => isWordChar c
     | _ => false)

/-- Alternative `\d+\s+(days|weeks|months|years)` with its trailing `\b`. -/
def altDuration (s : List Char) : Bool :=
  let r1 := s.dropWhile Char.isDigit
  let r2 := r1.dropWhile pyIsSpace
  !(s.takeWhile Char.isDigit).isEmpty && !(r1.takeWhile pyIsSpace).isEmpty &&
    (litThenGap ("days".toList) r2 || litThenGap ("weeks".toList) r2 ||
     litThenGap ("months".toList) r2 || litThenGap ("years".toList) r2)

/-- Alternatives `reduced|improved|decreased|increased` with trailing `\b`. -/
def altVerb (s : List Char) : Bool :=
  litThenGap ("reduced".toList) s || litThenGap ("improved".toList) s ||
  litThenGap ("decreased".toList) s || litThenGap ("increased".toList) s

/-- One of the alternatives of the metric regex at the current position. -/
def altAt (s : List Char) : Bool := altPercent s || altDuration s || altVerb s

/-- Scan of the metric regex over the text. Every alternative begins with a
word character, so the leading `\b` holds exactly when the previous
character is absent or not a word character. -/
def searchFrom : Option Char → List Char → Bool
  | _, [] => false
  | prev, c :: rest =>
    ((match prev with | none => true | some p => !isWordChar p) && altAt (c :: rest))
    || searchFrom (some c) rest

/-- Model of `re.search(r"\b(\d+%|\d+\s+(days|weeks|months|years)|reduced|improved|decreased|increased)\b", s)`
returning whether a match exists (line 116 of the source). -/
def metricSearch (s : List Char) : Bool := searchFrom none s

/-- Model of Python substring containment `needle in hay`. -/
def isSubstring (needle : List Char) : List Char → Bool
  | [] => needle.isEmpty
  | c :: rest => needle.isPrefixOf (c :: rest) || isSubstring needle rest

/-- The STAR marker vocabulary of the behavioral branch (line 111). -/
def starMarkers : List (List Char) :=
  ["situation".toList, "task".toList, "action".toList, "result".toList,
   "challenge".toList, "led".toList, "implemented".toList, "outcome".toList,
   "impact".toList, "responsib".toList]

/-- Number of STAR markers contained in the lowered answer (lines 110-113). -/
def starHits (ansLower : List Char) : Nat :=
  starMarkers.countP (fun kw => isSubstring kw ansLower)

/-- Number of question keywords contained (case-insensitively) in the
lowered answer (the counting loops at lines 73-77 and 129-132). -/
def matchedKeywords (keywords : List (List Char)) (ansLower : List Char) : Nat :=
  keywords.countP (fun kw => isSubstring (pyLower kw) ansLower)

/-- The keyword-derived component of the technical score:
`round(coverage * 8)` with `coverage = matched / total` (line 79),
computed on the exact rational. -/
def keywordComponent (matched total : Nat) : Nat := pyRound (matched * 8) total

/-- A question record as consumed by `evaluate_answer`. The source reads
the fields with `question.get("type", "technical")`,
`question.get("keywords", [])` and `question.get("explanation", "")`
(lines 61-63), so a missing field and its default are identical to the
evaluator; the fields below hold the value after the default is applied. -/
structure Question where
  qtype : List Char := "technical".toList
  keywords : List (List Char) := []
  explanation : List Char := []
  deriving DecidableEq

/-- The tuple returned by `evaluate_answer`:
`(score, reason, strengths, weaknesses, tips)`. -/
structure EvalResult where
  score : Int
  reason : List Char
  strengths : List (List Char)
  weaknesses : List (List Char)
  tips : List (List Char)
  deriving DecidableEq

/-- The state of a type-specific branch just before the final polish
(lines 143-150): score, type-specific reasoning, and the three lists. -/
structure BranchOut where
  score : Int
  reasoning : List Char
  strengths : List (List Char)
  weaknesses : List (List Char)
  tips : List (List Char)
  deriving DecidableEq

/-- The early return for an empty answer (lines 58-59). -/
def emptyAnswerResult : EvalResult :=
  { score := 0
    reason := "No answer provided.".toList
    strengths := []
    weaknesses := ["No response.".toList]
    tips := ["Try to answer the question; use STAR for behavioral answers or outline steps for technical ones.".toList] }

/-- Lines 90-105 of the technical branch: length adjustment (an
`if/elif`, embedded field-wise with the same guards), the clamp to
[0, 10], the reasoning string, and the low-score explanation tip. -/
def technicalFinish (score0 : Int) (strengths0 weaknesses0 tips0 reasoning_parts : List (List Char))
    (explanation answer_text : List Char) : BranchOut :=
  let word_count := countWords answer_text
  let score1 : Int :=
    if 120 < word_count then min 10 (score0 + 1)
    else if word_count < 30 then max 0 (score0 - 1)
    else score0
  let strengths1 :=
    if 120 < word_count then strengths0 ++ ["Provided detailed answer".toList] else strengths0
  let weaknesses1 :=
    if 120 < word_count then weaknesses0
    else if word_count < 30 then weaknesses0 ++ ["Answer was short; expand with steps or examples".toList]
    else weaknesses0
  let score2 := max 0 (min 10 score1)
  let reasoning :=
    if reasoning_parts = [] then "Evaluated technical response by heuristics.".toList
    else joinSep ("; ".toList) reasoning_parts
  let tips1 :=
    if explanation ≠ [] ∧ score2 < 6 then
      tips0 ++ ["Review the key concept: ".toList ++ explanation]
    else tips0
  ⟨score2, reasoning, strengths1, weaknesses1, tips1⟩

/-- The technical branch (lines 71-105). The coverage comparison
`coverage > 0.7` is computed on the exact rational
(`10 * matched > 7 * total`); the division by `len(keywords)` is a
fallible operation, hence the `Option`. -/
def technicalEval (keywords : List (List Char)) (explanation answer_text : List Char) :
    Option BranchOut :=
  if keywords = [] then
    some (technicalFinish (Int.ofNat (min 6 (countWords answer_text / 20))) [] [] [] []
      explanation answer_text)
  else if keywords.length = 0 then none
  else
    let ansLower := pyLower answer_text
    let matched := matchedKeywords keywords ansLower
    let base : Int := Int.ofNat (keywordComponent matched keywords.length)
    let rp := ["Keyword coverage: ".toList ++ natToChars matched ++ "/".toList ++ natToChars keywords.length]
    if 7 * keywords.length < 10 * matched then
      some (technicalFinish base ["Covered most key concepts".toList] [] [] rp
        explanation answer_text)
    else
      some (technicalFinish base [] ["Missed some important concepts".toList]
        ["Make sure to mention the core terms and explain how they fit together. Consider a short definition followed by an example.".toList]
        rp explanation answer_text)

/-- The behavioral branch (lines 107-124). -/
def behavioralEval (answer_text : List Char) : BranchOut :=
  let ansLower := pyLower answer_text
  let hits := starHits ansLower
  let base : Int := min 10 (Int.ofNat (hits * 2))
  let hasMetric := metricSearch ansLower
  let score := if hasMetric then min 10 (base + 2) else base
  let strengths0 := if hasMetric then ["Included measurable results or metrics".toList] else []
  let strengths :=
    if 3 ≤ hits then strengths0 ++ ["Clear structure — covers multiple STAR elements".toList]
    else strengths0
  let weaknesses :=
    if 3 ≤ hits then []
    else ["Missing parts of the STAR structure (Situation, Task, Action, Result)".toList]
  let tips :=
    if 3 ≤ hits then []
    else ["Use the STAR method: briefly state the Situation and Task, describe Actions you took, and end with the Result (preferably quantifiable).".toList]
  ⟨score, "Detected STAR-like keywords: ".toList ++ natToChars hits, strengths, weaknesses, tips⟩

/-- The scenario branch (lines 125-141): `coverage` is 0 when there are no
keywords, otherwise `matched / len(keywords)` (a fallible division); the
stepwise bonus is added with no clamp; `coverage < 0.5` is computed on the
exact rational (`2 * matched < total`, or no keywords at all). -/
def scenarioEval (keywords : List (List Char)) (answer_text : List Char) :
    Option BranchOut :=
  let ansLower := pyLower answer_text
  let matched := matchedKeywords keywords ansLower
  let base? : Option Int :=
    if keywords = [] then some 0
    else if keywords.length = 0 then none
    else some (Int.ofNat (pyRound (matched * 7) keywords.length))
  match base? with
  | none => none
  | some base =>
    let stepwise := isSubstring ("step".toList) ansLower || isSubstring ("first".toList) ansLower ||
      isSubstring ("then".toList) ansLower
    let score := if stepwise then base + 2 else base
    let strengths := if stepwise then ["Provided a stepwise approach".toList] else []
    let weaknesses :=
      if keywords = [] ∨ 2 * matched < keywords.length then
        ["Missed some technical or process-oriented items".toList]
      else []
    let tips :=
      if keywords = [] ∨ 2 * matched < keywords.length then
        ["Outline a clear step-by-step plan and mention key controls or mitigations.".toList]
      else []
    some ⟨score,
      "Scenario heuristic: ".toList ++ natToChars matched ++ "/".toList ++
        natToChars keywords.length ++ " keywords matched".toList,
      strengths, weaknesses, tips⟩

/-- Dispatch on the question type (lines 71, 107, 125). -/
def branchEval (question : Question) (answer_text : List Char) : Option BranchOut :=
  if question.qtype = "technical".toList then
    technicalEval question.keywords question.explanation answer_text
  else if question.qtype = "behavioral".toList then
    some (behavioralEval answer_text)
  else
    scenarioEval question.keywords answer_text

/-- The final polish (lines 143-150): the closing strength and the
`"Score: {score}/10. "` prefix on the reason. -/
def mkResult (b : BranchOut) : EvalResult :=
  let strengths :=
    if 8 ≤ b.score then b.strengths ++ ["Good answer — clear and thorough".toList]
    else if 5 ≤ b.score then b.strengths ++ ["Decent answer; with room to add more specifics or examples".toList]
    else b.strengths
  ⟨b.score, "Score: ".toList ++ intToChars b.score ++ "/10. ".toList ++ b.reasoning,
    strengths, b.weaknesses, b.tips⟩

/-- `evaluate_answer` (lines 56-150) with its fallible operations made
explicit: `none` would mean an uncaught error (a division by zero). -/
def evaluate_answerE (question : Question) (answer_text : List Char) : Option EvalResult :=
  if answer_text = [] then some emptyAnswerResult
  else (branchEval question answer_text).map mkResult

/-- Total version of `evaluate_answer`; `evaluate_answerE_total` below
shows the default is never used. -/
def evaluate_answer (question : Question) (answer_text : List Char) : EvalResult :=
  (evaluate_answerE question answer_text).getD ⟨0, [], [], [], []⟩

/-- The technical question of the spec's end-to-end scenario (also used as
a generic technical question with keywords). -/
def qTech : Question :=
  ⟨"technical".toList,
   ["confidentiality".toList, "integrity".toList, "availability".toList],
   "CIA triad...".toList⟩

/-- A behavioral question. -/
def qBehav : Question := ⟨"behavioral".toList, [], []⟩

/-- A scenario question with no keywords. -/
def qScen : Question := ⟨"scenario".toList, [], []⟩

lemma pyRound_ge (a b : Nat) : a / b ≤ pyRound a b := by
  unfold pyRound
  split
  · exact Nat.le_refl _
  · split
    · exact Nat.le_succ _
    · split
      · exact Nat.le_refl _
      · exact Nat.le_succ _

lemma pyRound_le_succ (a b : Nat) : pyRound a b ≤ a / b + 1 := by
  unfold pyRound
  split
  · exact Nat.le_succ _
  · split
    · exact Nat.le_refl _
    · split
      · exact Nat.le_succ _
      · exact Nat.le_refl _

lemma pyRound_le (a b k : Nat) (hb : 0 < b) (h : a ≤ k * b) : pyRound a b ≤ k := by
  have hdiv : a / b ≤ k := by
    have h2 : a < (k + 1) * b := by
      have h3 : k * b < (k + 1) * b := by
        rw [Nat.succ_mul]
        exact Nat.lt_add_of_pos_right hb
      exact Nat.lt_of_le_of_lt h h3
    have h4 : a / b < k + 1 := (Nat.div_lt_iff_lt_mul hb).mpr h2
    exact Nat.lt_succ_iff.mp h4
  rcases Nat.lt_or_ge (a / b) k with hlt | hge
  · calc pyRound a b ≤ a / b + 1 := pyRound_le_succ a b
      _ ≤ k := Nat.succ_le_of_lt hlt
  · have hqk : a / b = k := Nat.le_antisymm hdiv hge
    have hmod0 : a % b = 0 := by
      have h1 : b * (a / b) + a % b = a := Nat.div_add_mod a b
      rw [hqk] at h1
      have h2 : b * k + a % b ≤ b * k + 0 := by
        rw [h1, Nat.add_zero, Nat.mul_comm]
        exact h
      exact Nat.le_zero.mp (Nat.le_of_add_le_add_left h2)
    have hsmall : 2 * (a % b) < b := by
      rw [hmod0]
      simpa using hb
    have hL : pyRound a b = a / b := by
      unfold pyRound
      rw [if_pos hsmall]
    rw [hL, hqk]

lemma pyRound_mono {a₁ a₂ : Nat} (b : Nat) (h : a₁ ≤ a₂) :
    pyRound a₁ b ≤ pyRound a₂ b := by
  have hd : a₁ / b ≤ a₂ / b := Nat.div_le_div_right h
  rcases Nat.lt_or_ge (a₁ / b) (a₂ / b) with hlt | hge
  · calc pyRound a₁ b ≤ a₁ / b + 1 := pyRound_le_succ a₁ b
      _ ≤ a₂ / b := Nat.succ_le_of_lt hlt
      _ ≤ pyRound a₂ b := pyRound_ge a₂ b
  · have hq : a₁ / b = a₂ / b := Nat.le_antisymm hd hge
    have hr : a₁ % b ≤ a₂ % b := by
      have e₁ : b * (a₁ / b) + a₁ % b = a₁ := Nat.div_add_mod a₁ b
      have e₂ : b * (a₂ / b) + a₂ % b = a₂ := Nat.div_add_mod a₂ b
      rw [hq] at e₁
      have h3 : b * (a₂ / b) + a₁ % b ≤ b * (a₂ / b) + a₂ % b := by
        rw [e₁, e₂]
        exact h
      exact Nat.le_of_add_le_add_left h3
    have h2r : 2 * (a₁ % b) ≤ 2 * (a₂ % b) := Nat.mul_le_mul (Nat.le_refl 2) hr
    by_cases c1 : 2 * (a₁ % b) < b
    · have hL : pyRound a₁ b = a₁ / b := by
        unfold pyRound
        rw [if_pos c1]
      rw [hL, hq]
      exact pyRound_ge a₂ b
    · by_cases c3 : b < 2 * (a₁ % b)
      · have c4 : b < 2 * (a₂ % b) := Nat.lt_of_lt_of_le c3 h2r
        have c5 : ¬ 2 * (a₂ % b) < b := Nat.not_lt.mpr (Nat.le_of_lt c4)
        have hL : pyRound a₁ b = a₁ / b + 1 := by
          unfold pyRound
          rw [if_neg c1, if_pos c3]
        have hR : pyRound a₂ b = a₂ / b + 1 := by
          unfold pyRound
          rw [if_neg c5, if_pos c4]
        rw [hL, hR, hq]
      · by_cases cp : a₁ / b % 2 = 0
        · have hL : pyRound a₁ b = a₁ / b := by
            unfold pyRound
            rw [if_neg c1, if_neg c3, if_pos cp]
          rw [hL, hq]
          exact pyRound_ge a₂ b
        · have hL : pyRound a₁ b = a₁ / b + 1 := by
            unfold pyRound
            rw [if_neg c1, if_neg c3, if_neg cp]
          by_cases c4 : b < 2 * (a₂ % b)
          · have c5 : ¬ 2 * (a₂ % b) < b := Nat.not_lt.mpr (Nat.le_of_lt c4)
            have hR : pyRound a₂ b = a₂ / b + 1 := by
              unfold pyRound
              rw [if_neg c5, if_pos c4]
            rw [hL, hR, hq]
          · have hbl : b ≤ 2 * (a₂ % b) := Nat.le_trans (Nat.le_of_not_lt c1) h2r
            have c5 : ¬ 2 * (a₂ % b) < b := Nat.not_lt.mpr hbl
            have cp2 : ¬ a₂ / b % 2 = 0 := by
              rw [← hq]
              exact cp
            have hR : pyRound a₂ b = a₂ / b + 1 := by
              unfold pyRound
              rw [if_neg c5, if_neg c4, if_neg cp2]
            rw [hL, hR, hq]

lemma technicalEval_isSome (k : List (List Char)) (e a : List Char) :
    (technicalEval k e a).isSome := by
  by_cases hk : k = []
  · simp [technicalEval, hk]
  · have hlen : ¬ k.length = 0 := by
      simpa [List.length_eq_zero] using hk
    simp only [technicalEval, if_neg hk, if_neg hlen]
    split <;> simp

lemma scenarioEval_isSome (k : List (List Char)) (a : List Char) :
    (scenarioEval k a).isSome := by
  by_cases hk : k = []
  · simp [scenarioEval, hk]
  · have hlen : ¬ k.length = 0 := by
      simpa [List.length_eq_zero] using hk
    simp only [scenarioEval, if_neg hk, if_neg hlen]
    simp

lemma branchEval_isSome (q : Question) (a : List Char) :
    (branchEval q a).isSome := by
  unfold branchEval
  split
  · exact technicalEval_isSome _ _ _
  · split
    · simp
    · exact scenarioEval_isSome _ _

lemma evaluate_answerE_isSome (q : Question) (a : List Char) :
    (evaluate_answerE q a).isSome := by
  unfold evaluate_answerE
  split
  · rfl
  · obtain ⟨b, hb⟩ := Option.isSome_iff_exists.mp (branchEval_isSome q a)
    simp [hb]

lemma mkResult_score (b : BranchOut) : (mkResult b).score = b.score := rfl

lemma mkResult_weaknesses (b : BranchOut) : (mkResult b).weaknesses = b.weaknesses := rfl

lemma mkResult_reason (b : BranchOut) :
    (mkResult b).reason =
      "Score: ".toList ++ intToChars b.score ++ "/10. ".toList ++ b.reasoning := rfl

lemma mkResult_strengths_mem {x : List Char} {b : BranchOut} (h : x ∈ b.strengths) :
    x ∈ (mkResult b).strengths := by
  unfold mkResult
  dsimp only
  split
  · exact List.mem_append_left _ h
  · split
    · exact List.mem_append_left _ h
    · exact h

lemma technicalFinish_score_bounds (s0 : Int) (st w t rp : List (List Char)) (e a : List Char) :
    0 ≤ (technicalFinish s0 st w t rp e a).score ∧ (technicalFinish s0 st w t rp e a).score ≤ 10 := by
  unfold technicalFinish
  dsimp only
  constructor
  · exact le_max_left 0 _
  · exact max_le (by norm_num) (min_le_left 10 _)

lemma technicalEval_score_bounds (k : List (List Char)) (e a : List Char) (b : BranchOut)
    (hb : technicalEval k e a = some b) : 0 ≤ b.score ∧ b.score ≤ 10 := by
  unfold technicalEval at hb
  by_cases hk : k = []
  · rw [if_pos hk] at hb
    injection hb with hb
    rw [← hb]
    exact technicalFinish_score_bounds _ _ _ _ _ _ _
  · have hlen : ¬ k.length = 0 := by
      simpa [List.length_eq_zero] using hk
    simp only [if_neg hk, if_neg hlen] at hb
    split at hb <;>
      (injection hb with hb ; rw [← hb] ; exact technicalFinish_score_bounds _ _ _ _ _ _ _)

lemma behavioralEval_score_eq (a : List Char) :
    (behavioralEval a).score =
      if metricSearch (pyLower a) then
        min 10 (min 10 (Int.ofNat (starHits (pyLower a) * 2)) + 2)
      else min 10 (Int.ofNat (starHits (pyLower a) * 2)) := rfl

lemma behavioralEval_score_bounds_even (a : List Char) :
    0 ≤ (behavioralEval a).score ∧ (behavioralEval a).score ≤ 10 ∧
      (behavioralEval a).score % 2 = 0 := by
  rw [behavioralEval_score_eq]
  simp only [Int.ofNat_eq_coe]
  split <;> omega

lemma scenarioEval_score_bounds (k : List (List Char)) (a : List Char) (b : BranchOut)
    (hb : scenarioEval k a = some b) : 0 ≤ b.score ∧ b.score ≤ 9 := by
  unfold scenarioEval at hb
  by_cases hk : k = []
  · simp only [if_pos hk] at hb
    injection hb with hb
    rw [← hb]
    dsimp only
    split <;> omega
  · have hlen : ¬ k.length = 0 := by
      simpa [List.length_eq_zero] using hk
    simp only [if_neg hk, if_neg hlen] at hb
    injection hb with hb
    rw [← hb]
    dsimp only
    have hm : matchedKeywords k (pyLower a) ≤ k.length := List.countP_le_length _
    have hround : pyRound (matchedKeywords k (pyLower a) * 7) k.length ≤ 7 := by
      apply pyRound_le _ _ 7 (Nat.pos_of_ne_zero hlen)
      calc matchedKeywords k (pyLower a) * 7 = 7 * matchedKeywords k (pyLower a) := Nat.mul_comm _ _
        _ ≤ 7 * k.length := Nat.mul_le_mul (Nat.le_refl 7) hm
    have hround' : ((pyRound (matchedKeywords k (pyLower a) * 7) k.length : Nat) : Int) ≤ 7 := by
      exact_mod_cast hround
    simp only [Int.ofNat_eq_coe]
    split <;> omega

lemma branchEval_score_bounds (q : Question) (a : List Char) (b : BranchOut)
    (hb : branchEval q a = some b) : 0 ≤ b.score ∧ b.score ≤ 10 := by
  unfold branchEval at hb
  split at hb
  · exact technicalEval_score_bounds _ _ _ _ hb
  · split at hb
    · injection hb with hb
      rw [← hb]
      have h := behavioralEval_score_bounds_even a
      exact ⟨h.1, h.2.1⟩
    · have h := scenarioEval_score_bounds _ _ _ hb
      exact ⟨h.1, le_trans h.2 (by norm_num)⟩

lemma behavioralEval_metric_strength (a : List Char)
    (hm : metricSearch (pyLower a) = true) :
    ("Included measurable results or metrics".toList) ∈ (behavioralEval a).strengths := by
  unfold behavioralEval
  dsimp only
  rw [hm]
  split
  · exact List.mem_append_left _ (List.mem_singleton.mpr rfl)
  · exact List.mem_singleton.mpr rfl

lemma evaluate_answer_eq_mk (q : Question) (a : List Char) (b : BranchOut)
    (ha : ¬ a = []) (hb : branchEval q a = some b) :
    evaluate_answer q a = mkResult b := by
  unfold evaluate_answer evaluate_answerE
  rw [if_neg ha, hb]
  rfl

lemma branchEval_behavioral (q : Question) (a : List Char)
    (hq : q.qtype = "behavioral".toList) :
    branchEval q a = some (behavioralEval a) := by
  have hne : ¬ q.qtype = "technical".toList := by
    rw [hq]
    decide
  unfold branchEval
  rw [if_neg hne, if_pos hq]

/-- C1: for every question (of any type, with any keywords or explanation)
and every answer string, the score returned by `evaluate_answer` is an
integer in the range [0, 10]. -/
theorem evaluate_answer_score_in_range (q : Question) (a : List Char) :
    0 ≤ (evaluate_answer q a).score ∧ (evaluate_answer q a).score ≤ 10 := by
  by_cases ha : a = []
  · subst ha
    have he : evaluate_answer q [] = emptyAnswerResult := rfl
    rw [he]
    decide
  · obtain ⟨b, hb⟩ := Option.isSome_iff_exists.mp (branchEval_isSome q a)
    rw [evaluate_answer_eq_mk q a b ha hb, mkResult_score]
    exact branchEval_score_bounds q a b hb

/-- C5: `evaluate_answer` never raises: the embedding with every fallible
operation (the two divisions) made explicit always returns a result, equal
to the total function `evaluate_answer`, for every question record
(missing keywords and explanation are the defaulted `[]`, an unrecognized
type takes the scenario branch) and every answer string. -/
theorem evaluate_answerE_total (q : Question) (a : List Char) :
    evaluate_answerE q a = some (evaluate_answer q a) := by
  obtain ⟨r, hr⟩ := Option.isSome_iff_exists.mp (evaluate_answerE_isSome q a)
  rw [hr]
  unfold evaluate_answer
  rw [hr]
  rfl

/-- C7: `evaluate_answer` is deterministic: two calls with identical
arguments return identical results; the embedding is a pure function of
the question and the answer, with no other state. -/
theorem evaluate_answer_deterministic (q₁ q₂ : Question) (a₁ a₂ : List Char)
    (hq : q₁ = q₂) (ha : a₁ = a₂) :
    evaluate_answer q₁ a₁ = evaluate_answer q₂ a₂ := by
  rw [hq, ha]

/-- Witness for C7 at a concrete question and answer. -/
theorem evaluate_answer_deterministic_witness :
    evaluate_answer qTech ("x".toList) = evaluate_answer qTech ("x".toList) :=
  evaluate_answer_deterministic qTech qTech ("x".toList) ("x".toList) rfl rfl

/-- C8: the keyword-derived component `round((matched/total) * 8)` of the
technical score is monotone non-decreasing in the number of matched
keywords, for a fixed non-empty keyword list. -/
theorem keywordComponent_monotone (n m₁ m₂ : Nat) (_hn : 0 < n)
    (h12 : m₁ ≤ m₂) (_h2n : m₂ ≤ n) :
    keywordComponent m₁ n ≤ keywordComponent m₂ n := by
  unfold keywordComponent
  exact pyRound_mono n (Nat.mul_le_mul h12 (Nat.le_refl 8))

/-- Witness for C8: one more matched keyword out of three does not lower
the component. -/
theorem keywordComponent_monotone_witness :
    keywordComponent 1 3 ≤ keywordComponent 2 3 :=
  keywordComponent_monotone 3 1 2 (by decide) (by decide) (by decide)

/-- C9: on the scenario branch (type neither "technical" nor
"behavioral") the score never exceeds 9: the base is at most
`round(coverage * 7) = 7` and the stepwise bonus adds 2, so the missing
clamp of that branch cannot be observed. -/
theorem scenario_branch_score_le_nine (q : Question) (a : List Char)
    (ht : ¬ q.qtype = "technical".toList) (hbv : ¬ q.qtype = "behavioral".toList) :
    (evaluate_answer q a).score ≤ 9 := by
  by_cases ha : a = []
  · subst ha
    have he : evaluate_answer q [] = emptyAnswerResult := rfl
    rw [he]
    decide
  · obtain ⟨b, hb⟩ := Option.isSome_iff_exists.mp (branchEval_isSome q a)
    have hsc : scenarioEval q.keywords a = some b := by
      rw [← hb]
      unfold branchEval
      rw [if_neg ht, if_neg hbv]
    rw [evaluate_answer_eq_mk q a b ha hb, mkResult_score]
    exact (scenarioEval_score_bounds _ _ _ hsc).2

/-- Witness for C9 at a concrete scenario question and answer. -/
theorem scenario_branch_score_le_nine_witness :
    (evaluate_answer qScen ("first we do X then Y".toList)).score ≤ 9 :=
  scenario_branch_score_le_nine qScen ("first we do X then Y".toList)
    (by decide) (by decide)

/-- C10: on the behavioral branch with a non-empty answer the score is
always even: the base is `star_hits * 2` capped at 10 and the only
adjustment adds 2 capped at 10. -/
theorem behavioral_score_even (q : Question) (a : List Char)
    (hq : q.qtype = "behavioral".toList) (ha : ¬ a = []) :
    (evaluate_answer q a).score % 2 = 0 := by
  rw [evaluate_answer_eq_mk q a (behavioralEval a) ha (branchEval_behavioral q a hq),
    mkResult_score]
  exact (behavioralEval_score_bounds_even a).2.2

/-- Witness for C10 at a concrete behavioral question and answer. -/
theorem behavioral_score_even_witness :
    (evaluate_answer qBehav ("situation and task".toList)).score % 2 = 0 :=
  behavioral_score_even qBehav ("situation and task".toList) rfl (by decide)

/-- C2 counterexample: the code checks `if not answer_text` without
trimming, so the whitespace-only answer "   " is not caught by the
empty-answer rule: its reason is "Score: 0/10. Keyword coverage: 0/3",
not "No answer provided.". -/
theorem whitespace_answer_escapes_empty_rule :
    ¬ (evaluate_answer qTech ("   ".toList)).reason = "No answer provided.".toList := by
  decide

/-- C2 amended: only the truly empty answer "" triggers the early return
with score 0, reason "No answer provided.", no strengths, a non-empty
weakness list and a non-empty tip list, for every question type; a
whitespace-only answer is scored by the type-specific rules instead. -/
theorem empty_answer_rule (q : Question) :
    (evaluate_answer q []).score = 0 ∧
    (evaluate_answer q []).reason = "No answer provided.".toList ∧
    (evaluate_answer q []).strengths = [] ∧
    ¬ (evaluate_answer q []).weaknesses = [] ∧
    ¬ (evaluate_answer q []).tips = [] := by
  have he : evaluate_answer q [] = emptyAnswerResult := rfl
  rw [he]
  decide

/-- C3 counterexample: for the empty answer the returned reason is
"No answer provided." with no "Score: 0/10. " prefix, although the
returned score is 0. -/
theorem empty_answer_reason_lacks_score_prefix :
    (evaluate_answer qTech []).score = 0 ∧
    (("Score: 0/10. ".toList).isPrefixOf (evaluate_answer qTech []).reason) = false := by
  decide

/-- C3 amended: for every question and every NON-EMPTY answer string, the
reason returned by `evaluate_answer` begins with "Score: {score}/10. "
followed by the type-specific reasoning; the empty-answer early return is
the one exception. -/
theorem reason_has_score_prefix (q : Question) (a : List Char) (ha : ¬ a = []) :
    ∃ rest, (evaluate_answer q a).reason =
      "Score: ".toList ++ intToChars (evaluate_answer q a).score ++ "/10. ".toList ++ rest := by
  obtain ⟨b, hb⟩ := Option.isSome_iff_exists.mp (branchEval_isSome q a)
  rw [evaluate_answer_eq_mk q a b ha hb, mkResult_reason, mkResult_score]
  exact ⟨b.reasoning, rfl⟩

/-- Witness for C3 amended at a concrete non-empty answer. -/
theorem reason_has_score_prefix_witness :
    ∃ rest, (evaluate_answer qTech ("hi".toList)).reason =
      "Score: ".toList ++ intToChars (evaluate_answer qTech ("hi".toList)).score ++
        "/10. ".toList ++ rest :=
  reason_has_score_prefix qTech ("hi".toList) (by decide)

/-- C4 counterexample: the answer "20%" contains a percentage, yet on a
behavioral question the metric bonus does not fire: the trailing word
boundary of the pattern `\d+%` fails at the end of the text, so the score
stays 0 and no strength is recorded. -/
theorem bare_percent_no_metric_bonus :
    (evaluate_answer qBehav ("20%".toList)).score = 0 ∧
    (evaluate_answer qBehav ("20%".toList)).strengths = [] := by
  decide

/-- C4 amended: for behavioral questions and non-empty answers, the +2
bonus (capped at 10) and the strength "Included measurable results or
metrics" fire exactly when the metric pattern matches; because of the
pattern's trailing word boundary, a percentage counts only when the `%`
is immediately followed by a word character, so a bare "20%" does not
trigger the bonus, while durations and the four verbs do. -/
theorem behavioral_metric_bonus (q : Question) (a : List Char)
    (hq : q.qtype = "behavioral".toList) (ha : ¬ a = [])
    (hm : metricSearch (pyLower a) = true) :
    (evaluate_answer q a).score =
      min 10 (min 10 (Int.ofNat (starHits (pyLower a) * 2)) + 2) ∧
    ("Included measurable results or metrics".toList) ∈ (evaluate_answer q a).strengths := by
  rw [evaluate_answer_eq_mk q a (behavioralEval a) ha (branchEval_behavioral q a hq)]
  constructor
  · rw [mkResult_score, behavioralEval_score_eq, if_pos hm]
  · exact mkResult_strengths_mem (behavioralEval_metric_strength a hm)

/-- Witness for C4 amended: the answer "reduced risk" matches the verb
alternative of the metric pattern. -/
theorem behavioral_metric_bonus_witness :
    (evaluate_answer qBehav ("reduced risk".toList)).score =
      min 10 (min 10 (Int.ofNat (starHits (pyLower ("reduced risk".toList)) * 2)) + 2) ∧
    ("Included measurable results or metrics".toList) ∈
      (evaluate_answer qBehav ("reduced risk".toList)).strengths :=
  behavioral_metric_bonus qBehav ("reduced risk".toList) rfl (by decide) (by decide)

/-- C6: the end-to-end scenario: technical question with the CIA-triad
keywords and explanation, answer "Confidentiality, integrity and
availability": full coverage gives base 8, the 4-word answer subtracts 1,
so the score is 7, the reason starts "Score: 7/10. Keyword coverage: 3/3",
the weakness notes the short answer and the strength the keyword
coverage. -/
theorem cia_triad_end_to_end :
    (evaluate_answer qTech ("Confidentiality, integrity and availability".toList)).score = 7 ∧
    (("Score: 7/10. Keyword coverage: 3/3".toList).isPrefixOf
      (evaluate_answer qTech ("Confidentiality, integrity and availability".toList)).reason) = true ∧
    ("Answer was short; expand with steps or examples".toList) ∈
      (evaluate_answer qTech ("Confidentiality, integrity and availability".toList)).weaknesses ∧
    ("Covered most key concepts".toList) ∈
      (evaluate_answer qTech ("Confidentiality, integrity and availability".toList)).strengths := by
  decide
